import Mathlib

/-!
Verification of the pull-request monitor background script
(`src/background.ts`): the review-relevance classifier, the review-state
classifier, the notification dedup engine, and the cycle orchestrator.

Timestamps (`updatedAt`, `createdAt`) are modelled as natural numbers
(milliseconds since the epoch, the value of JavaScript `getTime()`), so the
accumulator sentinel `0` used by the source is the smallest possible value.
Identities (logins) and urls are strings, as in the source.  The JavaScript
`Set` iterations are modelled by lists; membership in the set built by the
source corresponds to list membership here.
-/

namespace PRMonitor

/-- One entry of `pullRequest.reviews.nodes`: `{author {login}, createdAt, state}`. -/
structure Review where
  author : String
  createdAt : Nat
  state : String
deriving DecidableEq

/-- One entry of `pullRequest.comments.nodes`: `{author {login}, createdAt}`. -/
structure Comment where
  author : String
  createdAt : Nat
deriving DecidableEq

/-- A fetched pull request, as selected by the GraphQL query of
`loadPullRequests` (`background.ts` lines 75-125).  `assignees` and
`reviewRequests` carry the logins of the nested nodes. -/
structure PullRequest where
  url : String
  title : String
  updatedAt : Nat
  author : String
  assignees : List String
  reviewRequests : List String
  reviews : List Review
  comments : List Comment
deriving DecidableEq

/-! ## Review-state classifier (`excludeReviewedPullRequests`, lines 168-207)

The source scans the reviews keeping two accumulators
(`lastReviewedOrCommentedAtTime`, starting at `0`, and `approvedByViewer`,
starting at `false`), then folds the comments into the timestamp
accumulator. -/

/-- One step of the review loop (lines 177-189): entries by other authors are
skipped; a matching entry turns `approvedByViewer` on when its state is
`APPROVED` and folds its `createdAt` into the running maximum. -/
def reviewStep (login : String) (acc : Nat × Bool) (r : Review) : Nat × Bool :=
  if r.author == login then
    (max r.createdAt acc.1, acc.2 || (r.state == "APPROVED"))
  else acc

/-- The review scan of lines 174-189: fold `reviewStep` over the reviews
starting from `(0, false)`. -/
def reviewAccum (login : String) (revs : List Review) : Nat × Bool :=
  revs.foldl (reviewStep login) (0, false)

/-- One step of the comment loop (lines 190-199): entries by other authors are
skipped; a matching entry folds its `createdAt` into the running maximum. -/
def commentStep (login : String) (acc : Nat) (c : Comment) : Nat :=
  if c.author == login then max c.createdAt acc else acc

/-- `approvedByViewer` after both loops: the boolean component of the review
scan (comments never change it). -/
def approvedByViewer (login : String) (pr : PullRequest) : Bool :=
  (reviewAccum login pr.reviews).2

/-- `lastReviewedOrCommentedAtTime` after both loops: the comment fold applied
to the timestamp component of the review scan. -/
def lastReviewedOrCommentedAtTime (login : String) (pr : PullRequest) : Nat :=
  pr.comments.foldl (commentStep login) (reviewAccum login pr.reviews).1

/-- `isReviewed` (lines 200-201):
`approvedByViewer || lastReviewedOrCommentedAtTime > lastUpdatedTime`. -/
def isReviewed (login : String) (pr : PullRequest) : Bool :=
  approvedByViewer login pr ||
    decide (pr.updatedAt < lastReviewedOrCommentedAtTime login pr)

/-- The classifier contract of the spec, 4.2: unreviewed iff not reviewed
(a pull request enters the unreviewed set iff `!isReviewed`, line 202). -/
def isUnreviewed (login : String) (pr : PullRequest) : Bool :=
  !(isReviewed login pr)

/-- `excludeReviewedPullRequests` (lines 168-207): keep exactly the pull
requests with `!isReviewed`. -/
def excludeReviewedPullRequests (login : String)
    (pullRequests : List PullRequest) : List PullRequest :=
  pullRequests.filter (fun pr => !(isReviewed login pr))

/-! ### Fold lemmas about the two scans -/

theorem foldl_reviewStep_snd (login : String) (revs : List Review)
    (acc : Nat × Bool) :
    (revs.foldl (reviewStep login) acc).2
      = (acc.2 || revs.any fun r => r.author == login && r.state == "APPROVED") := by
  induction revs generalizing acc with
  | nil => simp
  | cons r rs ih =>
    rw [List.foldl_cons, ih, List.any_cons]
    unfold reviewStep
    by_cases h : r.author = login
    · simp [h, Bool.or_assoc]
    · have hb : (r.author == login) = false := beq_eq_false_iff_ne.mpr h
      simp [hb]

theorem foldl_reviewStep_fst_le (login : String) (revs : List Review)
    (acc : Nat × Bool) :
    acc.1 ≤ (revs.foldl (reviewStep login) acc).1 := by
  induction revs generalizing acc with
  | nil => simp
  | cons r rs ih =>
    rw [List.foldl_cons]
    refine le_trans ?_ (ih _)
    unfold reviewStep
    by_cases h : r.author = login <;> simp [h]

theorem foldl_reviewStep_fst_ge (login : String) (revs : List Review)
    (r : Review) (hr : r ∈ revs) (ha : r.author = login) (acc : Nat × Bool) :
    r.createdAt ≤ (revs.foldl (reviewStep login) acc).1 := by
  induction revs generalizing acc with
  | nil => cases hr
  | cons x xs ih =>
    rw [List.foldl_cons]
    rcases List.mem_cons.mp hr with h1 | h1
    · subst h1
      refine le_trans ?_ (foldl_reviewStep_fst_le login xs _)
      unfold reviewStep
      simp [ha]
    · exact ih h1 _

theorem foldl_commentStep_le (login : String) (cs : List Comment) (acc : Nat) :
    acc ≤ cs.foldl (commentStep login) acc := by
  induction cs generalizing acc with
  | nil => simp
  | cons c cs ih =>
    rw [List.foldl_cons]
    refine le_trans ?_ (ih _)
    unfold commentStep
    by_cases h : c.author = login
    · simp [h]
    · simp [h]

theorem foldl_commentStep_ge (login : String) (cs : List Comment)
    (c : Comment) (hc : c ∈ cs) (ha : c.author = login) (acc : Nat) :
    c.createdAt ≤ cs.foldl (commentStep login) acc := by
  induction cs generalizing acc with
  | nil => cases hc
  | cons x xs ih =>
    rw [List.foldl_cons]
    rcases List.mem_cons.mp hc with h1 | h1
    · subst h1
      refine le_trans ?_ (foldl_commentStep_le login xs _)
      unfold commentStep
      simp [ha]
    · exact ih h1 _

theorem foldl_reviewStep_no_match (login : String) (revs : List Review)
    (h : ∀ r ∈ revs, ¬(r.author = login)) (acc : Nat × Bool) :
    revs.foldl (reviewStep login) acc = acc := by
  induction revs generalizing acc with
  | nil => simp
  | cons r rs ih =>
    rw [List.foldl_cons]
    have hr : ¬(r.author = login) := h r (List.mem_cons_self r rs)
    have hstep : reviewStep login acc r = acc := by
      unfold reviewStep
      simp [hr]
    rw [hstep]
    exact ih (fun x hx => h x (List.mem_cons_of_mem r hx)) acc

theorem foldl_commentStep_no_match (login : String) (cs : List Comment)
    (h : ∀ c ∈ cs, ¬(c.author = login)) (acc : Nat) :
    cs.foldl (commentStep login) acc = acc := by
  induction cs generalizing acc with
  | nil => simp
  | cons c xs ih =>
    rw [List.foldl_cons]
    have hc : ¬(c.author = login) := h c (List.mem_cons_self c xs)
    have hstep : commentStep login acc c = acc := by
      unfold commentStep
      simp [hc]
    rw [hstep]
    exact ih (fun x hx => h x (List.mem_cons_of_mem c hx)) acc

/-! ## Relevance filter (`loadPullRequests`, lines 137-162)

After the fetch, `loadPullRequests` walks every pull request of every
repository: a pull request authored by the viewer is skipped (`continue`,
lines 141-144), and otherwise it is added to the result set when the viewer
appears among the assignees, among the requested reviewers, or as the author
of a review (three loops, lines 145-159).  Membership in that set is the
boolean below. -/

/-- The condition under which the loops of lines 141-159 put a pull request in
the result set. -/
def relevant (login : String) (pr : PullRequest) : Bool :=
  !(pr.author == login) &&
    (pr.assignees.any (fun a => a == login) ||
      pr.reviewRequests.any (fun q => q == login) ||
      pr.reviews.any (fun r => r.author == login))

/-- The set of pull requests built by `loadPullRequests` from the fetched
snapshot, as a list. -/
def relevantPullRequests (login : String) (prs : List PullRequest) :
    List PullRequest :=
  prs.filter (relevant login)

/-! ## Notification dedup engine
(`showNotificationForNewPullRequests`, lines 250-263, and
`recordSeenPullRequests`, lines 286-290) -/

/-- The pull requests for which the loop of lines 254-261 calls
`showNotification`: those whose url is not in the previously seen url set. -/
def toNotify (pullRequests : List PullRequest) (lastSeenUrls : List String) :
    List PullRequest :=
  pullRequests.filter (fun pr => !(lastSeenUrls.contains pr.url))

/-- `recordSeenPullRequests` (lines 286-290): persist the urls of every pull
request of the current unreviewed set. -/
def recordSeenPullRequests (pullRequests : List PullRequest) : List String :=
  pullRequests.map (fun p => p.url)

/-- `showNotificationForNewPullRequests` (lines 250-263): show a notification
for each pull request not seen last time, then record the whole current set.
Result: (notified pull requests, persisted seen url list). -/
def showNotificationForNewPullRequests (pullRequests : List PullRequest)
    (lastSeenUrls : List String) : List PullRequest × List String :=
  (toNotify pullRequests lastSeenUrls, recordSeenPullRequests pullRequests)

/-! ## Cycle orchestrator (`checkPullRequests`, lines 43-63)

The orchestrator is modelled as a total function of the cycle's environment
(the outcomes of the fallible effect steps) and the storage/badge state left
by earlier cycles.  `fetchResult` stands for
`getGitHubApiToken` + the network part of `loadPullRequests` (lines 46-47,
either a thrown error message or the viewer login with the raw fetched pull
requests); `badgeFailure` and `notifyFailure` model a throw inside
`updateBadge` (line 53) respectively at the start of
`showNotificationForNewPullRequests` (line 54, whose first await is the
storage read).  The `trace` records which steps completed, in order. -/

/-- The persistent `chrome.storage.local` keys used by the core. -/
structure Storage where
  unreviewedPullRequests : List PullRequest
  lastSeenPullRequests : List String
  error : Option String
deriving DecidableEq

/-- The browser-action badge (text and background color). -/
structure Badge where
  text : String
  color : String
deriving DecidableEq

/-- `updateBadge` (lines 226-233): count as text, green when zero, else red. -/
def updateBadge (prCount : Nat) : Badge :=
  { text := toString prCount, color := if prCount == 0 then "#4d4" else "#f00" }

/-- `showBadgeError` (lines 238-245): the error indicator badge. -/
def showBadgeError : Badge :=
  { text := "!", color := "#000" }

/-- `saveUnreviewedPullRequests` (lines 212-221): overwrite the
`unreviewedPullRequests` storage key. -/
def saveUnreviewedPullRequests (pullRequests : List PullRequest)
    (st : Storage) : Storage :=
  { st with unreviewedPullRequests := pullRequests }

/-- Outcomes of the fallible effect steps of one cycle. -/
structure CycleEnv where
  fetchResult : Except String (String × List PullRequest)
  badgeFailure : Option String
  notifyFailure : Option String

/-- The steps a cycle can complete, for the trace. -/
inductive CycleEvent where
  | fetch
  | filter
  | classify
  | saveUnreviewed
  | updateBadge
  | notify
  | recordSeen
  | badgeError
  | setError
deriving DecidableEq

/-- The outcome of one cycle. -/
structure CycleResult where
  storage : Storage
  badge : Badge
  notificationsShown : List String
  trace : List CycleEvent
deriving DecidableEq

/-- `checkPullRequests` (lines 43-63).  The `try` block fetches, filters
(inside `loadPullRequests`), classifies, saves the unreviewed set, updates the
badge, then notifies (which also records the seen set); on any throw the
`catch` shows the error badge instead; in both cases the `error` storage key
is finally overwritten (message on failure, null on success). -/
def checkPullRequests (env : CycleEnv) (st : Storage) (b : Badge) :
    CycleResult :=
  match env.fetchResult with
  | Except.error msg =>
    { storage := { st with error := some msg }
      badge := showBadgeError
      notificationsShown := []
      trace := [CycleEvent.badgeError, CycleEvent.setError] }
  | Except.ok (login, fetched) =>
    let unreviewed :=
      excludeReviewedPullRequests login (relevantPullRequests login fetched)
    let st1 := saveUnreviewedPullRequests unreviewed st
    match env.badgeFailure with
    | some msg =>
      { storage := { st1 with error := some msg }
        badge := showBadgeError
        notificationsShown := []
        trace := [CycleEvent.fetch, CycleEvent.filter, CycleEvent.classify,
          CycleEvent.saveUnreviewed, CycleEvent.badgeError,
          CycleEvent.setError] }
    | none =>
      let b1 := updateBadge unreviewed.length
      match env.notifyFailure with
      | some msg =>
        { storage := { st1 with error := some msg }
          badge := showBadgeError
          notificationsShown := []
          trace := [CycleEvent.fetch, CycleEvent.filter, CycleEvent.classify,
            CycleEvent.saveUnreviewed, CycleEvent.updateBadge,
            CycleEvent.badgeError, CycleEvent.setError] }
      | none =>
        let step :=
          showNotificationForNewPullRequests unreviewed st1.lastSeenPullRequests
        { storage := { st1 with lastSeenPullRequests := step.2, error := none }
          badge := b1
          notificationsShown := step.1.map (fun pr => pr.url)
          trace := [CycleEvent.fetch, CycleEvent.filter, CycleEvent.classify,
            CycleEvent.saveUnreviewed, CycleEvent.updateBadge,
            CycleEvent.notify, CycleEvent.recordSeen, CycleEvent.setError] }

/-! ## Concrete fixtures used by witnesses and counterexamples -/

/-- An approval by alice at time 5. -/
def reviewApproved : Review :=
  { author := "alice", createdAt := 5, state := "APPROVED" }

/-- A non-approving review by alice at time 10. -/
def reviewCommented : Review :=
  { author := "alice", createdAt := 10, state := "COMMENTED" }

/-- Approved by alice at 5, updated afterwards at 100. -/
def prApproved : PullRequest :=
  { url := "u1", title := "t1", updatedAt := 100, author := "bob",
    assignees := ["alice"], reviewRequests := [], reviews := [reviewApproved],
    comments := [] }

/-- Comment by alice at 11, strictly after the update at 10; no approval. -/
def prCommentedAfter : PullRequest :=
  { url := "u2", title := "t2", updatedAt := 10, author := "bob",
    assignees := ["alice"], reviewRequests := [],
    reviews := [], comments := [{ author := "alice", createdAt := 11 }] }

/-- Non-approving review by alice at exactly the update time 10. -/
def prReviewedAtSameTime : PullRequest :=
  { url := "u3", title := "t3", updatedAt := 10, author := "bob",
    assignees := ["alice"], reviewRequests := [],
    reviews := [reviewCommented], comments := [] }

/-- No activity by alice at all. -/
def prNoActivity : PullRequest :=
  { url := "u4", title := "t4", updatedAt := 7, author := "bob",
    assignees := ["alice"], reviewRequests := ["alice"],
    reviews := [{ author := "carol", createdAt := 9, state := "APPROVED" }],
    comments := [{ author := "bob", createdAt := 8 }] }

/-- Authored by alice, who is also assignee, requested reviewer and reviewer. -/
def prSelfAuthored : PullRequest :=
  { url := "u5", title := "t5", updatedAt := 3, author := "alice",
    assignees := ["alice"], reviewRequests := ["alice"],
    reviews := [{ author := "alice", createdAt := 2, state := "APPROVED" }],
    comments := [] }

/-! ## The claims -/

/-- C1: whenever the pull request contains a review authored by the viewer
with state APPROVED, `isUnreviewed` is false — for every `updatedAt`, since
`pr` is arbitrary (approval never expires). -/
theorem isUnreviewed_false_of_approved (login : String) (pr : PullRequest)
    (r : Review) (hr : r ∈ pr.reviews) (ha : r.author = login)
    (hs : r.state = "APPROVED") :
    isUnreviewed login pr = false := by
  have happ : approvedByViewer login pr = true := by
    unfold approvedByViewer reviewAccum
    rw [foldl_reviewStep_snd]
    simp only [Bool.false_or, List.any_eq_true]
    exact ⟨r, hr, by simp [ha, hs]⟩
  simp [isUnreviewed, isReviewed, happ]

/-- C1 witness: alice approved `prApproved` at time 5 and its `updatedAt` is
100, strictly later than every activity of alice; still not unreviewed. -/
theorem isUnreviewed_false_of_approved_witness :
    isUnreviewed "alice" prApproved = false :=
  isUnreviewed_false_of_approved "alice" prApproved reviewApproved
    (by simp [prApproved]) rfl rfl

/-- C2: without an APPROVED review by the viewer, a viewer review or comment
strictly after `updatedAt` makes `isUnreviewed` false, while a last viewer
activity exactly at `updatedAt` leaves `isUnreviewed` true (strict
inequality at the boundary). -/
theorem isUnreviewed_strict_boundary (login : String) (pr : PullRequest)
    (hna : approvedByViewer login pr = false) :
    (((∃ r ∈ pr.reviews, r.author = login ∧ pr.updatedAt < r.createdAt) ∨
      (∃ c ∈ pr.comments, c.author = login ∧ pr.updatedAt < c.createdAt)) →
        isUnreviewed login pr = false) ∧
    (lastReviewedOrCommentedAtTime login pr = pr.updatedAt →
        isUnreviewed login pr = true) := by
  constructor
  · intro hact
    have hlt : pr.updatedAt < lastReviewedOrCommentedAtTime login pr := by
      rcases hact with ⟨r, hr, har, hlt⟩ | ⟨c, hc, hac, hlt⟩
      · have h1 : r.createdAt ≤ (reviewAccum login pr.reviews).1 :=
          foldl_reviewStep_fst_ge login pr.reviews r hr har (0, false)
        have h2 : (reviewAccum login pr.reviews).1
            ≤ lastReviewedOrCommentedAtTime login pr :=
          foldl_commentStep_le login pr.comments (reviewAccum login pr.reviews).1
        exact lt_of_lt_of_le hlt (le_trans h1 h2)
      · exact lt_of_lt_of_le hlt
          (foldl_commentStep_ge login pr.comments c hc hac
            (reviewAccum login pr.reviews).1)
    simp [isUnreviewed, isReviewed, hlt]
  · intro heq
    simp [isUnreviewed, isReviewed, hna, heq]

/-- C2 witness: alice commented on `prCommentedAfter` at 11 > 10, so it is
reviewed; alice reviewed `prReviewedAtSameTime` at exactly 10 = `updatedAt`
without approving, so it stays unreviewed. -/
theorem isUnreviewed_strict_boundary_witness :
    isUnreviewed "alice" prCommentedAfter = false ∧
    isUnreviewed "alice" prReviewedAtSameTime = true :=
  ⟨(isUnreviewed_strict_boundary "alice" prCommentedAfter rfl).1
      (Or.inr ⟨{ author := "alice", createdAt := 11 }, by decide⟩),
    (isUnreviewed_strict_boundary "alice" prReviewedAtSameTime rfl).2 rfl⟩

/-- C3: a pull request with no review and no comment authored by the viewer
is always unreviewed, whatever `updatedAt` is: the accumulator stays at the
sentinel 0 and `0 > updatedAt` never holds on naturals. -/
theorem isUnreviewed_true_of_no_activity (login : String) (pr : PullRequest)
    (h1 : ∀ r ∈ pr.reviews, ¬(r.author = login))
    (h2 : ∀ c ∈ pr.comments, ¬(c.author = login)) :
    isUnreviewed login pr = true := by
  have hra : reviewAccum login pr.reviews = (0, false) :=
    foldl_reviewStep_no_match login pr.reviews h1 (0, false)
  have hl : lastReviewedOrCommentedAtTime login pr = 0 := by
    unfold lastReviewedOrCommentedAtTime
    rw [hra]
    exact foldl_commentStep_no_match login pr.comments h2 0
  have ha : approvedByViewer login pr = false := by
    unfold approvedByViewer
    rw [hra]
  simp [isUnreviewed, isReviewed, ha, hl]

/-- C3 witness: only bob and carol acted on `prNoActivity`, so it is
unreviewed for alice. -/
theorem isUnreviewed_true_of_no_activity_witness :
    isUnreviewed "alice" prNoActivity = true :=
  isUnreviewed_true_of_no_activity "alice" prNoActivity (by decide) (by decide)

/-- C4: the relevance filter keeps exactly the fetched pull requests not
authored by the viewer in which the viewer is an assignee, a requested
reviewer, or the author of some review; in particular a self-authored pull
request is never kept. -/
theorem relevantPullRequests_spec (login : String) (prs : List PullRequest)
    (pr : PullRequest) :
    (pr ∈ relevantPullRequests login prs ↔
      pr ∈ prs ∧ ¬(pr.author = login) ∧
        (login ∈ pr.assignees ∨ login ∈ pr.reviewRequests ∨
          ∃ r ∈ pr.reviews, r.author = login)) ∧
    (pr.author = login → pr ∉ relevantPullRequests login prs) := by
  have hiff : pr ∈ relevantPullRequests login prs ↔
      pr ∈ prs ∧ ¬(pr.author = login) ∧
        (login ∈ pr.assignees ∨ login ∈ pr.reviewRequests ∨
          ∃ r ∈ pr.reviews, r.author = login) := by
    simp [relevantPullRequests, List.mem_filter, relevant, List.any_eq_true]
    tauto
  exact ⟨hiff, fun h hmem => ((hiff.mp hmem).2.1 h)⟩

/-- C4 witness: `prSelfAuthored` is authored by alice, who is also assignee,
requested reviewer and prior reviewer of it: the filter still drops it. -/
theorem relevantPullRequests_spec_witness :
    ¬(prSelfAuthored ∈ relevantPullRequests "alice" [prSelfAuthored]) :=
  (relevantPullRequests_spec "alice" [prSelfAuthored] prSelfAuthored).2 rfl

/-- C5: the dedup step notifies exactly the unreviewed items whose url is not
in the prior seen set — an already-seen url yields no notification, an unseen
url yields exactly one. -/
theorem toNotify_dedup (U : List PullRequest) (S : List String)
    (pr : PullRequest) (hU : U.Nodup) :
    (pr.url ∈ S → pr ∉ toNotify U S) ∧
    (pr ∈ U → pr.url ∉ S → (toNotify U S).count pr = 1) := by
  constructor
  · intro hs hmem
    have hp := (List.mem_filter.mp hmem).2
    simp at hp
    exact hp hs
  · intro hmem hns
    have hmem2 : pr ∈ toNotify U S := by
      refine List.mem_filter.mpr ⟨hmem, ?_⟩
      simp [hns]
    exact List.count_eq_one_of_mem (List.Nodup.filter _ hU) hmem2

/-- C5 witness: with prior seen set containing only the url of `prApproved`,
`prApproved` is filtered out and the unseen `prNoActivity` is notified
exactly once. -/
theorem toNotify_dedup_witness :
    prApproved ∉ toNotify [prApproved, prNoActivity] ["u1"] ∧
    (toNotify [prApproved, prNoActivity] ["u1"]).count prNoActivity = 1 :=
  ⟨(toNotify_dedup [prApproved, prNoActivity] ["u1"] prApproved
      (by decide)).1 (by decide),
    (toNotify_dedup [prApproved, prNoActivity] ["u1"] prNoActivity
      (by decide)).2 (by decide) (by decide)⟩

/-- A prior storage state with a non-empty persisted unreviewed set. -/
def stPrev : Storage :=
  { unreviewedPullRequests := [prApproved], lastSeenPullRequests := ["u9"],
    error := none }

/-- Another prior storage state, with a different seen set. -/
def stOther : Storage :=
  { unreviewedPullRequests := [], lastSeenPullRequests := ["u4"],
    error := some "old" }

/-- A prior badge state. -/
def badge0 : Badge := { text := "0", color := "#4d4" }

/-- A fully successful cycle fetching two pull requests. -/
def envOk : CycleEnv :=
  { fetchResult := Except.ok ("alice", [prNoActivity, prSelfAuthored]),
    badgeFailure := none, notifyFailure := none }

/-- A cycle whose fetch fails with message "boom". -/
def envErr : CycleEnv :=
  { fetchResult := Except.error "boom", badgeFailure := none,
    notifyFailure := none }

/-- A cycle whose fetch succeeds but whose badge update throws. -/
def envBadgeFail : CycleEnv :=
  { fetchResult := Except.ok ("alice", [prNoActivity, prSelfAuthored]),
    badgeFailure := some "badge boom", notifyFailure := none }

/-- C6: on a successful cycle the persisted seen set is exactly the urls of
the cycle's unreviewed set, whatever the prior storage (in particular the
prior seen set) was; every still-unreviewed item, already seen or not, is
retained in it. -/
theorem checkPullRequests_nextSeen (env : CycleEnv) (st st2 : Storage)
    (b b2 : Badge) (login : String) (prs : List PullRequest)
    (hf : env.fetchResult = Except.ok (login, prs))
    (hb : env.badgeFailure = none) (hn : env.notifyFailure = none) :
    (checkPullRequests env st b).storage.lastSeenPullRequests
        = (excludeReviewedPullRequests login
            (relevantPullRequests login prs)).map (fun p => p.url) ∧
    (checkPullRequests env st b).storage.lastSeenPullRequests
        = (checkPullRequests env st2 b2).storage.lastSeenPullRequests ∧
    ∀ pr ∈ excludeReviewedPullRequests login (relevantPullRequests login prs),
      pr.url ∈ (checkPullRequests env st b).storage.lastSeenPullRequests := by
  refine ⟨?_, ?_, ?_⟩
  · simp [checkPullRequests, hf, hb, hn, showNotificationForNewPullRequests,
      recordSeenPullRequests, saveUnreviewedPullRequests]
  · simp [checkPullRequests, hf, hb, hn, showNotificationForNewPullRequests,
      recordSeenPullRequests, saveUnreviewedPullRequests]
  · intro pr hpr
    simp [checkPullRequests, hf, hb, hn, showNotificationForNewPullRequests,
      recordSeenPullRequests, saveUnreviewedPullRequests]
    exact ⟨pr, hpr, rfl⟩

/-- C6 witness: the seen set persisted by the successful cycle `envOk` does
not depend on the prior storage, and the url of the still-unreviewed
`prNoActivity` is retained in it. -/
theorem checkPullRequests_nextSeen_witness :
    (checkPullRequests envOk stPrev badge0).storage.lastSeenPullRequests
        = (checkPullRequests envOk stOther badge0).storage.lastSeenPullRequests ∧
    prNoActivity.url
        ∈ (checkPullRequests envOk stPrev badge0).storage.lastSeenPullRequests :=
  ⟨(checkPullRequests_nextSeen envOk stPrev stOther badge0 badge0 "alice"
      [prNoActivity, prSelfAuthored] rfl rfl rfl).2.1,
    (checkPullRequests_nextSeen envOk stPrev stOther badge0 badge0 "alice"
      [prNoActivity, prSelfAuthored] rfl rfl rfl).2.2 prNoActivity (by decide)⟩

/-- C7: feeding the seen set recorded from an unreviewed set back as the
prior seen set of a cycle with the same unreviewed set notifies nothing. -/
theorem toNotify_roundtrip (U : List PullRequest) (S : List String) :
    (showNotificationForNewPullRequests U
        (showNotificationForNewPullRequests U S).2).1 = [] := by
  unfold showNotificationForNewPullRequests toNotify recordSeenPullRequests
  simp [List.filter_eq_nil_iff]
  exact fun pr hpr => ⟨pr, hpr, rfl⟩

/-- C8: when the fetch fails, the cycle still runs to completion: the badge
shows the error indicator, the error field carries the failure message, no
notification is shown, and the previously persisted unreviewed set (and seen
set) are left untouched. -/
theorem checkPullRequests_fetch_error (env : CycleEnv) (st : Storage)
    (b : Badge) (msg : String)
    (hf : env.fetchResult = Except.error msg) :
    (checkPullRequests env st b).storage.unreviewedPullRequests
        = st.unreviewedPullRequests ∧
    (checkPullRequests env st b).storage.error = some msg ∧
    (checkPullRequests env st b).badge = showBadgeError ∧
    (checkPullRequests env st b).notificationsShown = [] ∧
    (checkPullRequests env st b).storage.lastSeenPullRequests
        = st.lastSeenPullRequests := by
  simp [checkPullRequests, hf]

/-- C8 witness: with the failing fetch of `envErr` over the prior state
`stPrev`, storage keeps the old unreviewed list, the message "boom" is
recorded and the badge shows the error glyph. -/
theorem checkPullRequests_fetch_error_witness :
    (checkPullRequests envErr stPrev badge0).storage.unreviewedPullRequests
        = [prApproved] ∧
    (checkPullRequests envErr stPrev badge0).storage.error = some "boom" ∧
    (checkPullRequests envErr stPrev badge0).badge = showBadgeError :=
  ⟨(checkPullRequests_fetch_error envErr stPrev badge0 "boom" rfl).1,
    (checkPullRequests_fetch_error envErr stPrev badge0 "boom" rfl).2.1,
    (checkPullRequests_fetch_error envErr stPrev badge0 "boom" rfl).2.2.1⟩

/-- C9 counterexample: in the concrete successful cycle `envOk` both the
save-unreviewed step and the notification step occur, and the unreviewed set
is persisted strictly before the notification step — not after it as the
claim states. -/
theorem checkPullRequests_persist_order_cex :
    CycleEvent.saveUnreviewed ∈ (checkPullRequests envOk stPrev badge0).trace ∧
    CycleEvent.notify ∈ (checkPullRequests envOk stPrev badge0).trace ∧
    (checkPullRequests envOk stPrev badge0).trace.indexOf
        CycleEvent.saveUnreviewed
      < (checkPullRequests envOk stPrev badge0).trace.indexOf
        CycleEvent.notify := by
  decide

/-- C9 amended: a successful cycle performs fetch, filter, classify, then
persists the unreviewed set, updates the badge, notifies, and only then
persists the seen set and the error field — the unreviewed set and badge are
persisted before the notification step, the seen set and error field after
it. -/
theorem checkPullRequests_step_order (env : CycleEnv) (st : Storage)
    (b : Badge) (login : String) (prs : List PullRequest)
    (hf : env.fetchResult = Except.ok (login, prs))
    (hb : env.badgeFailure = none) (hn : env.notifyFailure = none) :
    (checkPullRequests env st b).trace
      = [CycleEvent.fetch, CycleEvent.filter, CycleEvent.classify,
         CycleEvent.saveUnreviewed, CycleEvent.updateBadge, CycleEvent.notify,
         CycleEvent.recordSeen, CycleEvent.setError] := by
  simp [checkPullRequests, hf, hb, hn]

/-- C9 amended witness: the concrete successful cycle `envOk` produces
exactly that step sequence. -/
theorem checkPullRequests_step_order_witness :
    (checkPullRequests envOk stPrev badge0).trace
      = [CycleEvent.fetch, CycleEvent.filter, CycleEvent.classify,
         CycleEvent.saveUnreviewed, CycleEvent.updateBadge, CycleEvent.notify,
         CycleEvent.recordSeen, CycleEvent.setError] :=
  checkPullRequests_step_order envOk stPrev badge0 "alice"
    [prNoActivity, prSelfAuthored] rfl rfl rfl

/-- C10: when fetch and classification succeed but the badge update or the
notification phase throws, the cycle records the failure (error field and
error badge) while the persisted unreviewed set is this cycle's newly
computed one, not the previous cycle's value. -/
theorem checkPullRequests_late_failure (env : CycleEnv) (st : Storage)
    (b : Badge) (login : String) (prs : List PullRequest) (msg : String)
    (hf : env.fetchResult = Except.ok (login, prs))
    (hfail : env.badgeFailure = some msg ∨
      (env.badgeFailure = none ∧ env.notifyFailure = some msg)) :
    (checkPullRequests env st b).storage.unreviewedPullRequests
        = excludeReviewedPullRequests login (relevantPullRequests login prs) ∧
    (checkPullRequests env st b).storage.error = some msg ∧
    (checkPullRequests env st b).badge = showBadgeError := by
  rcases hfail with hb | ⟨hb, hn⟩
  · simp [checkPullRequests, hf, hb, saveUnreviewedPullRequests]
  · simp [checkPullRequests, hf, hb, hn, saveUnreviewedPullRequests]

/-- C10 witness: in `envBadgeFail` the badge update throws after the save;
storage then holds the cycle's new unreviewed set (not `stPrev`'s old value
`[prApproved]`), the message is recorded and the badge shows the error
glyph. -/
theorem checkPullRequests_late_failure_witness :
    (checkPullRequests envBadgeFail stPrev badge0).storage.unreviewedPullRequests
        = excludeReviewedPullRequests "alice"
            (relevantPullRequests "alice" [prNoActivity, prSelfAuthored]) ∧
    (checkPullRequests envBadgeFail stPrev badge0).storage.error
        = some "badge boom" ∧
    (checkPullRequests envBadgeFail stPrev badge0).badge = showBadgeError :=
  checkPullRequests_late_failure envBadgeFail stPrev badge0 "alice"
    [prNoActivity, prSelfAuthored] "badge boom" rfl (Or.inl rfl)

end PRMonitor
